import Mathlib

/-!
Verification of the telemetry census client (`src/telemetry.py`) against its
natural-language specification.  The Python module is shallowly embedded:
module-level globals become an explicit scheduler state, `os.getenv` becomes a
function from variable names to `Option String`, the filesystem and the
network become explicit state/outcome parameters, and `hashlib.sha256` is
implemented concretely over `Nat` (words reduced mod 2^32).
-/

namespace Telemetry

/-! ## Environment model

`os.environ` is a partial map from variable names to strings. -/

/-- The process environment: `os.getenv name` yields `env name`. -/
abbrev Env : Type := String → Option String

/-- `_DEFAULT_ENDPOINT` constant from the source. -/
def _DEFAULT_ENDPOINT : String := "https://telemetry.namelessnanashi.dev/census"

/-- `_PROJECT_NAME` constant from the source (a static placeholder string). -/
def _PROJECT_NAME : String := "<PROJECT_NAME>"

/-- `_OPTOUT_ENV_VAR` constant from the source. -/
def _OPTOUT_ENV_VAR : String := "<PROJECT_ACRONYM>_TELEMETRY_OPTOUT"

/-- Python `(v or "")` for `v : Optional[str]`: `None` and `""` are falsy. -/
def pyOrEmpty (v : Option String) : String :=
  match v with
  | none => ""
  | some s => s

/-- The ASCII whitespace characters `str.strip()` removes. -/
def pyIsSpace (c : Char) : Bool :=
  c = ' ' || c = '\t' || c = '\n' || c = '\r' || c = '\x0b' || c = '\x0c'

/-- Strip `pyIsSpace` characters from both ends of a character list. -/
def listStrip (cs : List Char) : List Char :=
  ((cs.dropWhile pyIsSpace).reverse.dropWhile pyIsSpace).reverse

/-- Python `str.strip()` (ASCII whitespace; the values compared against the
token sets are ASCII). -/
def pyStrip (s : String) : String := String.mk (listStrip s.data)

/-- Python `str.lower()` on one character (ASCII case mapping; the token
sets are ASCII). -/
def pyLowerChar (c : Char) : Char :=
  if 'A' ≤ c && c ≤ 'Z' then Char.ofNat (c.toNat + 32) else c

/-- Python `str.lower()`. -/
def pyLower (s : String) : String := String.mk (s.data.map pyLowerChar)

/-- `_env_truthy(v)`: `(v or "").strip().lower()` is a member of the
truthy token set. -/
def _env_truthy (v : Option String) : Bool :=
  let s := pyLower (pyStrip (pyOrEmpty v))
  ["1", "true", "yes", "on", "y", "t"].contains s

/-- `_env_falsy(v)`: `(v or "").strip().lower()` is a member of the
falsy token set. -/
def _env_falsy (v : Option String) : Bool :=
  let s := pyLower (pyStrip (pyOrEmpty v))
  ["0", "false", "no", "off", "n", "f"].contains s

/-- `_env_opt_out()`: project-specific opt-out truthy, or generic opt-out
truthy, or `TELEMETRY` set and falsy (early-return structure kept). -/
def _env_opt_out (env : Env) : Bool :=
  if _env_truthy (env _OPTOUT_ENV_VAR) || _env_truthy (env "TELEMETRY_OPTOUT") then
    true
  else
    match env "TELEMETRY" with
    | some tel => _env_falsy (some tel)
    | none => false

/-- Python `x or y` on an optional string `x`: `None` and `""` fall through. -/
def pyOrDefault (v : Option String) (d : String) : String :=
  match v with
  | none => d
  | some s => if s.isEmpty then d else s

/-- `_get_endpoint()`: `os.getenv("TELEMETRY_ENDPOINT") or _DEFAULT_ENDPOINT`. -/
def _get_endpoint (env : Env) : String :=
  pyOrDefault (env "TELEMETRY_ENDPOINT") _DEFAULT_ENDPOINT

/-- `_get_project_name()`: returns the static constant. -/
def _get_project_name : String := _PROJECT_NAME

/-! ## SHA-256 (embedding of `hashlib.sha256(...).hexdigest()`)

32-bit machine words are `Nat`s reduced mod `2^32`. -/

/-- `2^32`, the word modulus. -/
def M32 : Nat := 4294967296

/-- Reduce to a 32-bit word. -/
def w32 (x : Nat) : Nat := x % M32

/-- Rotate a 32-bit word right by `n` bits. -/
def rotr32 (n x : Nat) : Nat :=
  w32 ((x >>> n) ||| (x <<< (32 - n)))

/-- SHA-256 message-schedule sigma 0. -/
def sigmaS0 (x : Nat) : Nat := rotr32 7 x ^^^ rotr32 18 x ^^^ (x >>> 3)

/-- SHA-256 message-schedule sigma 1. -/
def sigmaS1 (x : Nat) : Nat := rotr32 17 x ^^^ rotr32 19 x ^^^ (x >>> 10)

/-- SHA-256 compression Sigma 0. -/
def sigmaB0 (x : Nat) : Nat := rotr32 2 x ^^^ rotr32 13 x ^^^ rotr32 22 x

/-- SHA-256 compression Sigma 1. -/
def sigmaB1 (x : Nat) : Nat := rotr32 6 x ^^^ rotr32 11 x ^^^ rotr32 25 x

/-- SHA-256 choice function (complement taken against the 32-bit mask). -/
def chF (x y z : Nat) : Nat := (x &&& y) ^^^ ((x ^^^ 4294967295) &&& z)

/-- SHA-256 majority function. -/
def majF (x y z : Nat) : Nat := (x &&& y) ^^^ (x &&& z) ^^^ (y &&& z)

/-- The 64 SHA-256 round constants (decimal renderings of the FIPS 180-4
words). -/
def K256 : List Nat :=
  [1116352408, 1899447441, 3049323471, 3921009573, 961987163, 1508970993,
   2453635748, 2870763221, 3624381080, 310598401, 607225278, 1426881987,
   1925078388, 2162078206, 2614888103, 3248222580, 3835390401, 4022224774,
   264347078, 604807628, 770255983, 1249150122, 1555081692, 1996064986,
   2554220882, 2821834349, 2952996808, 3210313671, 3336571891, 3584528711,
   113926993, 338241895, 666307205, 773529912, 1294757372, 1396182291,
   1695183700, 1986661051, 2177026350, 2456956037, 2730485921, 2820302411,
   3259730800, 3345764771, 3516065817, 3600352804, 4094571909, 275423344,
   430227734, 506948616, 659060556, 883997877, 958139571, 1322822218,
   1537002063, 1747873779, 1955562222, 2024104815, 2227730452, 2361852424,
   2428436474, 2756734187, 3204031479, 3329325298]

/-- SHA-256 working state: eight 32-bit words. -/
structure Hash8 where
  a : Nat
  b : Nat
  c : Nat
  d : Nat
  e : Nat
  f : Nat
  g : Nat
  h : Nat

/-- The SHA-256 initial hash value (decimal renderings). -/
def H256 : Hash8 :=
  ⟨1779033703, 3144134277, 1013904242, 2773480762,
   1359893119, 2600822924, 528734635, 1541459225⟩

/-- Extend a 16-word block to the 64-word message schedule (`fuel` = 48). -/
def schedExtend (ws : List Nat) : Nat → List Nat
  | 0 => ws
  | n + 1 =>
    let k := ws.length
    let nw := w32 (sigmaS1 (ws.getD (k - 2) 0) + ws.getD (k - 7) 0 +
                   sigmaS0 (ws.getD (k - 15) 0) + ws.getD (k - 16) 0)
    schedExtend (ws ++ [nw]) n

/-- One SHA-256 compression round. -/
def round256 (st : Hash8) (kw : Nat × Nat) : Hash8 :=
  let t1 := w32 (st.h + sigmaB1 st.e + chF st.e st.f st.g + kw.1 + kw.2)
  let t2 := w32 (sigmaB0 st.a + majF st.a st.b st.c)
  ⟨w32 (t1 + t2), st.a, st.b, st.c, w32 (st.d + t1), st.e, st.f, st.g⟩

/-- Add two hash states word-wise mod `2^32`. -/
def addHash (x y : Hash8) : Hash8 :=
  ⟨w32 (x.a + y.a), w32 (x.b + y.b), w32 (x.c + y.c), w32 (x.d + y.d),
   w32 (x.e + y.e), w32 (x.f + y.f), w32 (x.g + y.g), w32 (x.h + y.h)⟩

/-- Compress one 16-word block into the running hash state. -/
def compress256 (st : Hash8) (block : List Nat) : Hash8 :=
  let ws := schedExtend block 48
  addHash st ((K256.zip ws).foldl round256 st)

/-- Group a byte list into big-endian 32-bit words (4 bytes each). -/
def bytesToWords : List Nat → List Nat
  | b0 :: b1 :: b2 :: b3 :: rest =>
    (((b0 * 256 + b1) * 256 + b2) * 256 + b3) :: bytesToWords rest
  | _ => []

/-- The `i`-th 16-word block of a word list. -/
def block16 (ws : List Nat) (i : Nat) : List Nat :=
  (ws.drop (16 * i)).take 16

/-- `n` as 8 big-endian bytes. -/
def be8 (n : Nat) : List Nat :=
  (List.range 8).map (fun i => (n >>> (8 * (7 - i))) % 256)

/-- SHA-256 message padding: `0x80`, zeros to 56 mod 64, 8-byte bit length. -/
def padMessage (msg : List Nat) : List Nat :=
  let z := (119 - msg.length % 64) % 64
  msg ++ [128] ++ List.replicate z 0 ++ be8 (8 * msg.length)

/-- The SHA-256 digest state of a byte string: compress the 16-word blocks
of the padded message in order (the padded length is a multiple of 64
bytes, hence of 16 words). -/
def sha256 (msg : List Nat) : Hash8 :=
  let ws := bytesToWords (padMessage msg)
  (List.range (ws.length / 16)).foldl (fun st i => compress256 st (block16 ws i)) H256

/-- Lowercase hexadecimal digit for `n < 16`. -/
def hexDigitChar (n : Nat) : Char :=
  if n < 10 then Char.ofNat (48 + n) else Char.ofNat (87 + n)

/-- A 32-bit word as exactly 8 lowercase hex characters. -/
def toHex8 (w : Nat) : String :=
  String.mk ((List.range 8).map (fun i => hexDigitChar ((w >>> (4 * (7 - i))) % 16)))

/-- `hexdigest()`: the eight state words, 8 hex characters each. -/
def hexDigest (st : Hash8) : String :=
  toHex8 st.a ++ toHex8 st.b ++ toHex8 st.c ++ toHex8 st.d ++
  toHex8 st.e ++ toHex8 st.f ++ toHex8 st.g ++ toHex8 st.h

/-- UTF-8 encoding of one character (`str.encode("utf-8")`, per code point). -/
def utf8Encode (c : Char) : List Nat :=
  let n := c.toNat
  if n < 128 then [n]
  else if n < 2048 then [192 ||| (n >>> 6), 128 ||| (n &&& 63)]
  else if n < 65536 then
    [224 ||| (n >>> 12), 128 ||| ((n >>> 6) &&& 63), 128 ||| (n &&& 63)]
  else
    [240 ||| (n >>> 18), 128 ||| ((n >>> 12) &&& 63),
     128 ||| ((n >>> 6) &&& 63), 128 ||| (n &&& 63)]

/-- `raw.encode("utf-8")` as a byte list. -/
def utf8Bytes (s : String) : List Nat :=
  (s.data.map utf8Encode).flatten

/-- `_hash_id(raw)`: hex digest of the SHA-256 of the UTF-8 bytes of `raw`. -/
def _hash_id (raw : String) : String :=
  hexDigest (sha256 (utf8Bytes raw))

/-! ## Scheduler time arithmetic

`datetime.now(timezone.utc)` is modelled as microseconds since the Unix epoch
(the resolution of `datetime`); one second is `1000000` microseconds, one hour
`3600000000`.  `now.replace(minute=0, second=0, microsecond=0)` truncates to
the hour, `base.hour` is the hour-of-day of the truncated instant, and
`timedelta(hours=k)` adds `k * 3600000000`. -/

/-- Microseconds per hour. -/
def usPerHour : Nat := 3600000000

/-- Microseconds per second. -/
def usPerSec : Nat := 1000000

/-- `_seconds_until_next_even_utc_hour()`, with `now` passed explicitly as
microseconds since the epoch and the delay returned in microseconds
(`max(1.0, delta)` becomes `max usPerSec delta`).  The redundant
even/odd branch duplication of the source is kept. -/
def _seconds_until_next_even_utc_hour (now : Nat) : Nat :=
  let base := now - now % usPerHour
  let baseHour := (base / usPerHour) % 24
  let nxt :=
    if now ≤ base then
      if baseHour % 2 = 0 then base + 2 * usPerHour else base + usPerHour
    else
      if baseHour % 2 = 0 then base + 2 * usPerHour else base + usPerHour
  max usPerSec (nxt - now)

/-! ## Identity store (`_ensure_instance_id`)

The filesystem at the resolved state path is a small explicit state: whether
the file exists, its content, and whether each fallible operation (read,
directory creation, write) succeeds.  `uuid.uuid4()` is an external source of
randomness, modelled as the two fresh strings the function can draw (the
source calls `uuid.uuid4()` at most twice per invocation: once for the id it
tries to persist and once more for the ephemeral fallback). -/

/-- Filesystem state at the resolved state-file path, plus fault switches. -/
structure FS where
  pathExists : Bool
  content : String
  readOk : Bool
  mkdirOk : Bool
  writeOk : Bool
deriving DecidableEq

/-- `_ensure_instance_id()`.  Returns the identifier together with the new
filesystem state.  `u1` is the value of the first `uuid.uuid4()` call (the id
to persist), `u2` the value of the fallback call in the `except` handler.
`makedirs` failure is caught by its inner handler and changes nothing, so
`mkdirOk` has no effect on the result; a read or write failure raises out of
the outer `try` and lands in the ephemeral branch. -/
def _ensure_instance_id (fs : FS) (u1 u2 : String) : String × FS :=
  if fs.pathExists then
    if fs.readOk then
      if pyStrip fs.content ≠ "" then
        (pyStrip fs.content, fs)
      else if fs.writeOk then
        (u1, { fs with pathExists := true, content := u1 })
      else
        (u2, fs)
    else
      (u2, fs)
  else if fs.writeOk then
    (u1, { fs with pathExists := true, content := u1 })
  else
    (u2, fs)

/-! ## Payload builder (`_make_payload`) -/

/-- A JSON value as the payload dict uses them: a string or a number. -/
inductive JVal where
  | s (v : String)
  | n (v : Nat)
deriving DecidableEq

/-- A payload: the ordered key/value pairs of the Python dict literal. -/
abbrev Payload : Type := List (String × JVal)

/-- The current UTC calendar date, the fields `strftime("%Y-%m-%d")` reads. -/
structure Date where
  year : Nat
  month : Nat
  day : Nat

/-- Zero-padded two-digit rendering, as `%m` / `%d` produce. -/
def pad2 (n : Nat) : String :=
  if n < 10 then "0" ++ toString n else toString n

/-- `now.strftime("%Y-%m-%d")` on the date fields. -/
def strftimeYmd (d : Date) : String :=
  toString d.year ++ "-" ++ pad2 d.month ++ "-" ++ pad2 d.day

/-- `_make_payload()`: consults the identity store, then builds the dict
with keys in source order.  Parameters: filesystem state, the uuid draws,
and the current UTC date. -/
def _make_payload (fs : FS) (u1 u2 : String) (today : Date) : Payload × FS :=
  let rid := _ensure_instance_id fs u1 u2
  ([("id", JVal.s (_hash_id rid.1)),
    ("date", JVal.s (strftimeYmd today)),
    ("projectname", JVal.s _get_project_name),
    ("project", JVal.s _get_project_name),
    ("count", JVal.n 1)], rid.2)

/-! ## Transport (`_post_sync`)

`urllib.request.Request(url, ...)` is constructed *before* the `try` block.
Its constructor parses the URL (`unwrap`, tag removal, `_splittype`) and
raises `ValueError` when no scheme (a nonempty leading run of characters
other than `/` and `:`, terminated by `:`) is found.  Everything inside the
`try` — `urlopen`, its network errors, timeouts and HTTP error statuses — is
caught by the two `except` clauses. -/

/-- `urllib.request.unwrap`: strip whitespace, then surrounding angle
brackets (`u[:1] == '<' and u[-1:] == '>'`), then a leading `URL:` marker. -/
def unwrapChars (cs : List Char) : List Char :=
  let v1 := listStrip cs
  let v2 := if v1.head? == some '<' && v1.getLast? == some '>' then
              listStrip ((v1.drop 1).dropLast)
            else v1
  if v2.take 4 == ['U', 'R', 'L', ':'] then listStrip (v2.drop 4) else v2

/-- `urllib.parse._splittag`: drop the fragment after the last `#`, if any
(the regex groups are greedy, so the split is at the last `#`). -/
def removeTagChars (cs : List Char) : List Char :=
  if cs.contains '#' then
    ((cs.reverse.dropWhile (fun c => c ≠ '#')).drop 1).reverse
  else cs

/-- Whether a leading `[^/:]+:` scheme is present (`urllib.parse._splittype`).
The accumulator records whether at least one scheme character was seen. -/
def hasSchemeAux : List Char → Bool → Bool
  | [], _ => false
  | c :: rest, seen =>
    if c = ':' then seen
    else if c = '/' then false
    else hasSchemeAux rest true

/-- `Request.__init__` succeeds on `url` iff the unwrapped, tag-stripped URL
carries a scheme; otherwise it raises `ValueError("unknown url type")`. -/
def requestUrlOk (url : String) : Bool :=
  hasSchemeAux (removeTagChars (unwrapChars url.data)) false

/-- Outcome of the single `urlopen` attempt. -/
inductive NetOutcome where
  | success (status : Nat)
  | urlError
  | otherError
deriving DecidableEq

/-- How `_post_sync` ends: normal return, or `ValueError` from request
construction escaping to the caller. -/
inductive PostResult where
  | returned
  | raisedValueError
deriving DecidableEq

/-- `_post_sync(url, data, timeout)`: builds the request (outside the `try`),
then swallows every outcome of the network attempt. -/
def _post_sync (url : String) (data : List Nat) (net : NetOutcome) : PostResult :=
  if requestUrlOk url then
    match net with
    | .success _ => .returned
    | .urlError => .returned
    | .otherError => .returned
  else
    .raisedValueError

/-! ## Scheduler state and the two send entry points

The module-level globals `_HAS_SCHEDULED_SEND`, `_HAS_LOGGED_SCHEDULE`,
`_HAS_LOGGED_SKIP`, `_HAS_LOGGED_NO_PROJECT` form the process-wide scheduler
state. -/

/-- The module-global flags. -/
structure SchedState where
  hasScheduledSend : Bool
  hasLoggedSchedule : Bool
  hasLoggedSkip : Bool
  hasLoggedNoProject : Bool
deriving DecidableEq

/-- State at interpreter start: all flags `False`. -/
def initState : SchedState := ⟨false, false, false, false⟩

/-- How one call of `maybe_send_telemetry_async` ends. -/
inductive SendResult where
  | skippedGate
  | skippedNoProject
  | dispatched (endpoint : String) (p : Payload)
  | builtNotDispatched
deriving DecidableEq

/-- `maybe_send_telemetry_async()`.  Gates on endpoint emptiness and opt-out,
then on project-name emptiness, then builds the payload and hands it to the
executor running `_post_sync` — but only when `asyncio.get_running_loop()`
succeeds (`loopRunning`); otherwise the `except` clause swallows the error
and nothing is dispatched. -/
def maybe_send_telemetry_async (st : SchedState) (env : Env) (fs : FS)
    (u1 u2 : String) (today : Date) (loopRunning : Bool) :
    SendResult × SchedState × FS :=
  let endpoint := _get_endpoint env
  if endpoint.isEmpty || _env_opt_out env then
    (.skippedGate, { st with hasLoggedSkip := true }, fs)
  else if _get_project_name.isEmpty then
    (.skippedNoProject, { st with hasLoggedNoProject := true }, fs)
  else
    let pb := _make_payload fs u1 u2 today
    if loopRunning then
      (.dispatched endpoint pb.1, st, pb.2)
    else
      (.builtNotDispatched, st, pb.2)

/-- Behaviour of `asyncio.get_event_loop()` at the call site. -/
inductive LoopAvail where
  | running
  | notRunning
  | raises
deriving DecidableEq

/-- Externally visible scheduling actions of the background entry point. -/
inductive Act where
  | scheduleImmediate
  | scheduleLoop
  | fallbackPost (endpoint : String) (p : Payload)
deriving DecidableEq

/-- `maybe_send_telemetry_background()`.  Checks and sets the
`_HAS_SCHEDULED_SEND` guard, eagerly persists the instance id, then: with a
running loop schedules the immediate send and the periodic loop; with a
non-running loop does nothing further; when `get_event_loop` raises, falls
back to a direct synchronous `_post_sync` of a freshly built payload
(gated by nothing).  `u1 u2` are the uuid draws of the eager persistence,
`u3 u4` those of the fallback payload build. -/
def maybe_send_telemetry_background (st : SchedState) (env : Env)
    (avail : LoopAvail) (fs : FS) (u1 u2 u3 u4 : String) (today : Date) :
    SchedState × FS × List Act :=
  if st.hasScheduledSend then
    (st, fs, [])
  else
    let st1 := { st with hasScheduledSend := true }
    let er := _ensure_instance_id fs u1 u2
    match avail with
    | .running =>
      ({ st1 with hasLoggedSchedule := true }, er.2,
       [.scheduleImmediate, .scheduleLoop])
    | .notRunning => (st1, er.2, [])
    | .raises =>
      let pb := _make_payload er.2 u3 u4 today
      (st1, pb.2, [.fallbackPost (_get_endpoint env) pb.1])

/-! ## The periodic loop body (`_periodic_ping_loop`)

One iteration of the `while True` body, parametrised by what each `await`
does: completes (`ok`), is cancelled (`CancelledError`, a `BaseException`),
or raises an ordinary `Exception` (`error`).  `CancelledError` raised at the
sleep or the send is caught by `except asyncio.CancelledError` and the loop
returns; an ordinary exception reaches `except Exception`, whose backoff
sleep may itself complete, be cancelled (the `CancelledError` is *not*
caught by the inner `except Exception` and escapes the coroutine — the task
ends cancelled), or raise an ordinary exception (the inner handler returns,
ending the loop without any cancellation). -/

/-- What one `await` does. -/
inductive AwaitOutcome where
  | ok
  | cancelled
  | error
deriving DecidableEq

/-- Result of one iteration of the loop body: continue (with the number of
backoff time units slept in the error handler), or terminate (recording
whether termination was due to a cancellation signal). -/
inductive IterResult where
  | continued (sent : Bool) (backoff : Nat)
  | terminated (byCancel : Bool)
deriving DecidableEq

/-- The `except Exception` handler of the loop body. -/
def handleTickError (backoffO : AwaitOutcome) : IterResult :=
  match backoffO with
  | .ok => .continued false 60
  | .cancelled => .terminated true
  | .error => .terminated false

/-- One iteration of the `while True` body of `_periodic_ping_loop`. -/
def _periodic_ping_loop_iter (sleepO : AwaitOutcome) (optOut : Bool)
    (sendO : AwaitOutcome) (backoffO : AwaitOutcome) : IterResult :=
  match sleepO with
  | .cancelled => .terminated true
  | .error => handleTickError backoffO
  | .ok =>
    if optOut then .continued false 0
    else
      match sendO with
      | .cancelled => .terminated true
      | .error => handleTickError backoffO
      | .ok => .continued true 0

/-! ## Call sequences

A process lifetime is a sequence of calls to the background entry point,
each with its own environment, event-loop situation, filesystem view, uuid
draws and date; the scheduler state threads through them. -/

/-- The inputs of one call to `maybe_send_telemetry_background`. -/
structure Call where
  env : Env
  avail : LoopAvail
  fs : FS
  u1 : String
  u2 : String
  u3 : String
  u4 : String
  today : Date

/-- One call of the background entry point on a `Call` record. -/
def callStep (st : SchedState) (c : Call) : SchedState × FS × List Act :=
  maybe_send_telemetry_background st c.env c.avail c.fs c.u1 c.u2 c.u3 c.u4 c.today

/-- Run a sequence of calls, threading the scheduler state and collecting
all emitted actions in order. -/
def runCalls : SchedState → List Call → SchedState × List Act
  | st, [] => (st, [])
  | st, c :: rest =>
    let r := callStep st c
    let rr := runCalls r.1 rest
    (rr.1, r.2.2 ++ rr.2)

/-! ## Observers and concrete instances used in the statements -/

/-- Whether a send result dispatched a payload to the transport. -/
def SendResult.dispatchedQ : SendResult → Bool
  | .dispatched _ _ => true
  | _ => false

/-- Whether an action is the ungated synchronous fallback post. -/
def Act.fallbackQ : Act → Bool
  | .fallbackPost _ _ => true
  | _ => false

/-- A concrete environment where only `TELEMETRY_ENDPOINT` is set, to the
empty string. -/
def envEmptyEp : Env := fun k => if k = "TELEMETRY_ENDPOINT" then some "" else none

/-- A concrete opted-out environment: only `TELEMETRY_OPTOUT=1` is set. -/
def envOptedOut : Env := fun k => if k = "TELEMETRY_OPTOUT" then some "1" else none

/-- A healthy filesystem state with a persisted identifier. -/
def fsBase : FS := ⟨true, "id-0001", true, true, true⟩

/-- A concrete call made while an event loop is running. -/
def callRunning : Call := ⟨fun _ => none, .running, fsBase, "a", "b", "c", "d", ⟨2024, 1, 1⟩⟩

/-- A concrete call made when `asyncio.get_event_loop()` raises. -/
def callRaises : Call := ⟨fun _ => none, .raises, fsBase, "a", "b", "c", "d", ⟨2024, 1, 1⟩⟩

/-! ## Claim theorems -/

/-- **C2**: for every environment, the opt-out predicate holds iff the
project-specific opt-out variable is truthy, or the generic opt-out variable
is truthy, or `TELEMETRY` is set and falsy; truthiness is case-insensitive
membership in `{1,true,yes,on,y,t}` after trimming, falsiness in
`{0,false,no,off,n,f}`, and absent values are neither. -/
theorem opt_out_spec (env : Env) :
    (_env_opt_out env = true ↔
      (_env_truthy (env _OPTOUT_ENV_VAR) = true ∨
       _env_truthy (env "TELEMETRY_OPTOUT") = true ∨
       ((env "TELEMETRY").isSome = true ∧ _env_falsy (env "TELEMETRY") = true))) ∧
    (∀ v : String, _env_truthy (some v) = true ↔
       pyLower (pyStrip v) ∈ ["1", "true", "yes", "on", "y", "t"]) ∧
    _env_truthy none = false ∧
    (∀ v : String, _env_falsy (some v) = true ↔
       pyLower (pyStrip v) ∈ ["0", "false", "no", "off", "n", "f"]) ∧
    _env_falsy none = false := by
  refine ⟨?_, ?_, ?_, ?_, ?_⟩
  · simp only [_env_opt_out]
    cases h : env "TELEMETRY" <;>
      by_cases h1 : _env_truthy (env _OPTOUT_ENV_VAR) = true <;>
      by_cases h2 : _env_truthy (env "TELEMETRY_OPTOUT") = true <;>
      simp [h, h1, h2]
  · intro v
    simp [_env_truthy, pyOrEmpty]
  · decide
  · intro v
    simp [_env_falsy, pyOrEmpty]
  · decide

/-! ### C3: empty endpoint override -/

/-- **C3** (counterexample): with the endpoint override set to the empty
string, the resolved endpoint is the hard-coded default — not absent — and
a send attempt is dispatched rather than skipped, contradicting the claim
that an empty override disables reporting. -/
theorem empty_endpoint_does_not_disable :
    _get_endpoint envEmptyEp = _DEFAULT_ENDPOINT ∧
    _DEFAULT_ENDPOINT ≠ "" ∧
    (maybe_send_telemetry_async initState envEmptyEp fsBase "u1" "u2"
        ⟨2024, 1, 1⟩ true).1.dispatchedQ = true := by
  refine ⟨by decide, by decide, ?_⟩
  rfl

/-- **C3** (amended): an empty endpoint override is treated exactly like an
unset one — the hard-coded default URL is used (so reporting is not
disabled); a non-empty override value is used verbatim; when the variable is
unset the default is used.  The resolved endpoint is never empty. -/
theorem endpoint_resolution_amended (env : Env) :
    (∀ s : String, env "TELEMETRY_ENDPOINT" = some s → s ≠ "" →
      _get_endpoint env = s) ∧
    (env "TELEMETRY_ENDPOINT" = some "" → _get_endpoint env = _DEFAULT_ENDPOINT) ∧
    (env "TELEMETRY_ENDPOINT" = none → _get_endpoint env = _DEFAULT_ENDPOINT) ∧
    _get_endpoint env ≠ "" := by
  refine ⟨?_, ?_, ?_, ?_⟩
  · intro s hs hne
    simp [_get_endpoint, pyOrDefault, hs, hne, String.isEmpty_iff]
  · intro hs
    simp [_get_endpoint, pyOrDefault, hs]
    exact fun hfalse => absurd hfalse (by decide)
  · intro hs
    simp [_get_endpoint, pyOrDefault, hs]
  · unfold _get_endpoint pyOrDefault
    cases h : env "TELEMETRY_ENDPOINT" with
    | none => decide
    | some s =>
      by_cases he : s.isEmpty
      · simp [he]
        decide
      · simp [he]
        simpa [String.isEmpty_iff] using he

/-- **C3** (amended, witness): instantiation at concrete environments. -/
theorem endpoint_resolution_amended_witness :
    (envEmptyEp "TELEMETRY_ENDPOINT" = some "" ∧
      _get_endpoint envEmptyEp = _DEFAULT_ENDPOINT) ∧
    ((fun _ => some "https://example.org/c" : Env) "TELEMETRY_ENDPOINT" =
        some "https://example.org/c" ∧
      _get_endpoint (fun _ => some "https://example.org/c") = "https://example.org/c") :=
  ⟨⟨by decide, (endpoint_resolution_amended envEmptyEp).2.1 (by decide)⟩,
   ⟨rfl, (endpoint_resolution_amended (fun _ => some "https://example.org/c")).1
      "https://example.org/c" rfl (by decide)⟩⟩

/-! ### C4: the next-aligned-boundary computation -/

/-- **C4**: for any current instant `t` (microseconds since the epoch, with
`usPerHour` microseconds per hour and the hour-of-day
`(t / usPerHour) % 24`): exactly at the top of an even hour the delay is two
hours; within an odd hour it is the delay to the next even hour one hour
out (floored at one second); strictly after an even hour's top it is the
delay to the even boundary two hours after that hour; the result is always
at least one second (= 1 time unit of the claim); and at
2024-01-01T01:30:00Z it is 30 minutes, at exactly 02:00:00Z two hours, at
03:59:59Z one second. -/
theorem next_even_hour_spec :
    (∀ t : Nat,
      (t % usPerHour = 0 → ((t / usPerHour) % 24) % 2 = 0 →
        _seconds_until_next_even_utc_hour t = 2 * usPerHour) ∧
      (((t / usPerHour) % 24) % 2 = 1 →
        _seconds_until_next_even_utc_hour t =
          max usPerSec ((t - t % usPerHour + usPerHour) - t)) ∧
      (t % usPerHour ≠ 0 → ((t / usPerHour) % 24) % 2 = 0 →
        _seconds_until_next_even_utc_hour t =
          (t - t % usPerHour + 2 * usPerHour) - t) ∧
      usPerSec ≤ _seconds_until_next_even_utc_hour t) ∧
    _seconds_until_next_even_utc_hour 1704072600000000 = 1800 * usPerSec ∧
    _seconds_until_next_even_utc_hour 1704074400000000 = 7200 * usPerSec ∧
    _seconds_until_next_even_utc_hour 1704081599000000 = 1 * usPerSec := by
  refine ⟨?_, by decide, by decide, by decide⟩
  intro t
  simp only [_seconds_until_next_even_utc_hour, usPerHour, usPerSec]
  refine ⟨?_, ?_, ?_, ?_⟩ <;> (try intro h1) <;> (try intro h2) <;> split_ifs <;> omega

/-- **C4** (witness): the theorem applied at 2024-01-01T02:00:00Z (an even
hour top) and at 01:30:00Z (inside an odd hour). -/
theorem next_even_hour_spec_witness :
    (1704074400000000 % usPerHour = 0 ∧
      ((1704074400000000 / usPerHour) % 24) % 2 = 0 ∧
      _seconds_until_next_even_utc_hour 1704074400000000 = 2 * usPerHour) ∧
    (((1704072600000000 / usPerHour) % 24) % 2 = 1 ∧
      _seconds_until_next_even_utc_hour 1704072600000000 =
        max usPerSec ((1704072600000000 - 1704072600000000 % usPerHour + usPerHour) -
          1704072600000000)) :=
  ⟨⟨by decide, by decide,
    (next_even_hour_spec.1 1704074400000000).1 (by decide) (by decide)⟩,
   ⟨by decide, (next_even_hour_spec.1 1704072600000000).2.1 (by decide)⟩⟩

/-! ### C5: transport never raises -/

/-- **C5** (counterexample): for an endpoint with no URL scheme the request
constructor raises `ValueError` before the protective `try`, so `_post_sync`
does not return normally — the claim's "never raises for any input
endpoint" fails. -/
theorem post_sync_raises_on_schemeless_url :
    _post_sync "telemetry.namelessnanashi.dev/census" [] (.success 200) =
      .raisedValueError ∧
    _post_sync "telemetry.namelessnanashi.dev/census" [] (.success 200) ≠
      .returned := by
  exact ⟨by decide, by decide⟩

/-- **C5** (amended): once the request URL parses (a scheme is present),
`_post_sync` returns normally on every network outcome — success with any
status, `URLError` (which covers non-2xx `HTTPError`s and timeouts), or any
other exception; a scheme-less endpoint instead raises `ValueError` from
request construction. The hard-coded default endpoint always parses. -/
theorem post_sync_amended (url : String) (data : List Nat) (net : NetOutcome) :
    (requestUrlOk url = true → _post_sync url data net = .returned) ∧
    (requestUrlOk url = false → _post_sync url data net = .raisedValueError) ∧
    requestUrlOk _DEFAULT_ENDPOINT = true := by
  refine ⟨?_, ?_, by decide⟩
  · intro h
    simp only [_post_sync, h, if_true]
    cases net <;> rfl
  · intro h
    simp [_post_sync, h]

/-- **C5** (amended, witness): the default endpoint with a failing network
returns normally. -/
theorem post_sync_amended_witness :
    requestUrlOk _DEFAULT_ENDPOINT = true ∧
    _post_sync _DEFAULT_ENDPOINT [] .urlError = .returned :=
  ⟨by decide, (post_sync_amended _DEFAULT_ENDPOINT [] .urlError).1 (by decide)⟩

/-! ### C6: the identity store never raises -/

/-- **C6**: `_ensure_instance_id` is total (never raises), and: if the file
exists, is readable, and holds content that is non-empty after trimming, it
returns the trimmed content verbatim with the filesystem unchanged; if the
file is absent (or exists with only-whitespace content) and the write
succeeds, it returns the fresh identifier `u1` and persists it; if the read
fails, or the write of the fresh identifier fails, it returns the ephemeral
identifier `u2` drawn for this call only and persists nothing. -/
theorem ensure_instance_id_spec (fs : FS) (u1 u2 : String) :
    (fs.pathExists = true → fs.readOk = true → pyStrip fs.content ≠ "" →
      _ensure_instance_id fs u1 u2 = (pyStrip fs.content, fs)) ∧
    ((fs.pathExists = false ∨
        (fs.pathExists = true ∧ fs.readOk = true ∧ pyStrip fs.content = "")) →
      fs.writeOk = true →
      _ensure_instance_id fs u1 u2 =
        (u1, { fs with pathExists := true, content := u1 })) ∧
    (fs.pathExists = true → fs.readOk = false →
      _ensure_instance_id fs u1 u2 = (u2, fs)) ∧
    ((fs.pathExists = false ∨
        (fs.pathExists = true ∧ fs.readOk = true ∧ pyStrip fs.content = "")) →
      fs.writeOk = false →
      _ensure_instance_id fs u1 u2 = (u2, fs)) := by
  refine ⟨?_, ?_, ?_, ?_⟩
  · intro hp hr hc
    simp [_ensure_instance_id, hp, hr, hc]
  · rintro (hp | ⟨hp, hr, hc⟩) hw
    · simp [_ensure_instance_id, hp, hw]
    · simp [_ensure_instance_id, hp, hr, hc, hw]
  · intro hp hr
    simp [_ensure_instance_id, hp, hr]
  · rintro (hp | ⟨hp, hr, hc⟩) hw
    · simp [_ensure_instance_id, hp, hw]
    · simp [_ensure_instance_id, hp, hr, hc, hw]

/-- **C6** (witness): a readable file containing `" abc "` yields `"abc"`
verbatim; an absent file with a failing write yields the ephemeral id. -/
theorem ensure_instance_id_spec_witness :
    _ensure_instance_id ⟨true, " abc ", true, true, true⟩ "u1" "u2" =
      ("abc", ⟨true, " abc ", true, true, true⟩) ∧
    _ensure_instance_id ⟨false, "", true, true, false⟩ "u1" "u2" =
      ("u2", ⟨false, "", true, true, false⟩) := by
  constructor
  · rw [(ensure_instance_id_spec ⟨true, " abc ", true, true, true⟩ "u1" "u2").1
      rfl rfl (by decide)]
    decide
  · exact (ensure_instance_id_spec ⟨false, "", true, true, false⟩ "u1" "u2").2.2.2
      (Or.inl rfl) rfl

/-! ### C7: payload shape -/

/-- Each hex digit of a word is a lowercase hex character. -/
theorem hexDigitChar_mem_alphabet : ∀ n < 16, hexDigitChar n ∈ "0123456789abcdef".data := by
  decide

/-- `toHex8` always produces exactly 8 characters. -/
theorem toHex8_length (w : Nat) : (toHex8 w).length = 8 := by
  simp [toHex8, String.length]

/-- Every character `toHex8` produces is a lowercase hex character. -/
theorem toHex8_chars (w : Nat) :
    ∀ c ∈ (toHex8 w).data, c ∈ "0123456789abcdef".data := by
  intro c hc
  simp only [toHex8, String.mk, List.mem_map, List.mem_range] at hc
  obtain ⟨i, _, rfl⟩ := hc
  exact hexDigitChar_mem_alphabet _ (Nat.mod_lt _ (by omega))

/-- The hex digest of any hash state has exactly 64 characters. -/
theorem hexDigest_length (st : Hash8) : (hexDigest st).length = 64 := by
  simp [hexDigest, String.length_append, toHex8_length]

/-- `_hash_id` always yields a 64-character string. -/
theorem hash_id_length (raw : String) : (_hash_id raw).length = 64 :=
  hexDigest_length _

/-- `_hash_id` yields only lowercase hex characters. -/
theorem hash_id_chars (raw : String) :
    ∀ c ∈ (_hash_id raw).data, c ∈ "0123456789abcdef".data := by
  intro c hc
  simp only [_hash_id, hexDigest, String.data_append, List.mem_append, or_assoc] at hc
  rcases hc with h | h | h | h | h | h | h | h <;> exact toHex8_chars _ _ h

set_option maxRecDepth 10000 in
/-- SHA-256 test vector: the digest of `"abc"`. -/
theorem hash_id_test_vector :
    _hash_id "abc" =
      "ba7816bf8f01cfea414140de5dae2223b00361a396177a9cb410ff61f20015ad" := by
  decide

/-- Zero-padded components are always two characters for values below 100. -/
theorem pad2_length : ∀ n < 100, (pad2 n).length = 2 := by
  decide

/-- Unfolding step of `Nat.toDigitsCore` for a two-or-more-digit number. -/
theorem toDigitsCore_len_step (f n : Nat) (h : 10 ≤ n) :
    (Nat.toDigitsCore 10 (f + 1) n []).length =
      (Nat.toDigitsCore 10 f (n / 10) []).length + 1 := by
  have hdiv : ¬ n / 10 = 0 := by omega
  simp only [Nat.toDigitsCore, hdiv, if_false]
  exact Nat.toDigitsCore_lens_eq 10 f (n / 10) _ []

/-- Base case of `Nat.toDigitsCore` for a one-digit number. -/
theorem toDigitsCore_len_base (f n : Nat) (h : n < 10) :
    (Nat.toDigitsCore 10 (f + 1) n []).length = 1 := by
  have hdiv : n / 10 = 0 := Nat.div_eq_of_lt h
  simp [Nat.toDigitsCore, hdiv]

/-- A four-digit year renders as exactly four characters. -/
theorem repr_len_four (y : Nat) (h1 : 1000 ≤ y) (h2 : y < 10000) :
    (toString y).length = 4 := by
  have e0 : toString y = Nat.repr y := rfl
  rw [e0]
  simp only [Nat.repr, Nat.toDigits, String.length, List.asString]
  have f1 : y + 1 = y + 1 := rfl
  have s1 : (Nat.toDigitsCore 10 (y + 1) y []).length =
      (Nat.toDigitsCore 10 y (y / 10) []).length + 1 :=
    toDigitsCore_len_step y y (by omega)
  have ey : y = (y - 1) + 1 := by omega
  have s2 : (Nat.toDigitsCore 10 ((y - 1) + 1) (y / 10) []).length =
      (Nat.toDigitsCore 10 (y - 1) (y / 10 / 10) []).length + 1 :=
    toDigitsCore_len_step (y - 1) (y / 10) (by omega)
  have ey1 : y - 1 = (y - 2) + 1 := by omega
  have s3 : (Nat.toDigitsCore 10 ((y - 2) + 1) (y / 10 / 10) []).length =
      (Nat.toDigitsCore 10 (y - 2) (y / 10 / 10 / 10) []).length + 1 :=
    toDigitsCore_len_step (y - 2) (y / 10 / 10) (by omega)
  have ey2 : y - 2 = (y - 3) + 1 := by omega
  have s4 : (Nat.toDigitsCore 10 ((y - 3) + 1) (y / 10 / 10 / 10) []).length = 1 :=
    toDigitsCore_len_base (y - 3) (y / 10 / 10 / 10) (by omega)
  rw [s1, ← ey] at *
  rw [s2, ← ey1] at *
  rw [s3, ← ey2] at *
  rw [s4]

/-- A date with a four-digit year and in-range month and day renders in
`YYYY-MM-DD` shape: ten characters, the 4-2-2 digit groups separated by
dashes. -/
theorem strftimeYmd_length (d : Date) (hy1 : 1000 ≤ d.year)
    (hy2 : d.year < 10000) (hm : d.month < 100) (hd : d.day < 100) :
    (strftimeYmd d).length = 10 := by
  simp [strftimeYmd, String.length_append, repr_len_four d.year hy1 hy2,
    pad2_length d.month hm, pad2_length d.day hd]
  decide

/-- **C7**: every built payload has exactly the keys
`id, date, projectname, project, count` in order; the `id` value is
`_hash_id` of the instance identity and is a 64-character lowercase-hex
string; the `date` value is the current UTC date rendered `YYYY-MM-DD`
(e.g. ten characters for a four-digit year, and `"2024-01-01"` concretely);
`projectname` and `project` are the static project constant; `count` is the
constant 1; and every string value of the payload is the identity's hash,
the date string, or the project constant — the raw identity appears only
through its one-way hash. -/
theorem make_payload_spec (fs : FS) (u1 u2 : String) (today : Date) :
    ((_make_payload fs u1 u2 today).1.map Prod.fst =
      ["id", "date", "projectname", "project", "count"]) ∧
    ((_make_payload fs u1 u2 today).1 =
      [("id", JVal.s (_hash_id (_ensure_instance_id fs u1 u2).1)),
       ("date", JVal.s (strftimeYmd today)),
       ("projectname", JVal.s _PROJECT_NAME),
       ("project", JVal.s _PROJECT_NAME),
       ("count", JVal.n 1)]) ∧
    (_hash_id (_ensure_instance_id fs u1 u2).1).length = 64 ∧
    (∀ c ∈ (_hash_id (_ensure_instance_id fs u1 u2).1).data,
      c ∈ "0123456789abcdef".data) ∧
    (1000 ≤ today.year → today.year < 10000 → today.month < 100 →
      today.day < 100 → (strftimeYmd today).length = 10) ∧
    strftimeYmd ⟨2024, 1, 1⟩ = "2024-01-01" ∧
    (∀ k v, (k, JVal.s v) ∈ (_make_payload fs u1 u2 today).1 →
      v = _hash_id (_ensure_instance_id fs u1 u2).1 ∨
      v = strftimeYmd today ∨ v = _PROJECT_NAME) := by
  refine ⟨rfl, rfl, hash_id_length _, hash_id_chars _,
    strftimeYmd_length today, by decide, ?_⟩
  intro k v hm
  simp only [_make_payload, _get_project_name, List.mem_cons,
    List.not_mem_nil, or_false, Prod.mk.injEq, JVal.s.injEq] at hm
  rcases hm with ⟨_, hv⟩ | ⟨_, hv⟩ | ⟨_, hv⟩ | ⟨_, hv⟩ | ⟨_, hv⟩
  · exact Or.inl hv
  · exact Or.inr (Or.inl hv)
  · exact Or.inr (Or.inr hv)
  · exact Or.inr (Or.inr hv)
  · exact absurd hv (by simp)

/-- **C7** (witness): the payload built over a concrete store and date; the
date-shape hypothesis and the string-value hypothesis discharged at the
`"date"` entry. -/
theorem make_payload_spec_witness :
    (strftimeYmd ⟨2024, 1, 1⟩).length = 10 ∧
    (strftimeYmd ⟨2024, 1, 1⟩ =
        _hash_id (_ensure_instance_id fsBase "u1" "u2").1 ∨
      strftimeYmd ⟨2024, 1, 1⟩ = strftimeYmd ⟨2024, 1, 1⟩ ∨
      strftimeYmd ⟨2024, 1, 1⟩ = _PROJECT_NAME) :=
  ⟨(make_payload_spec fsBase "u1" "u2" ⟨2024, 1, 1⟩).2.2.2.2.1
      (by decide) (by decide) (by decide) (by decide),
   (make_payload_spec fsBase "u1" "u2" ⟨2024, 1, 1⟩).2.2.2.2.2.2
      "date" (strftimeYmd ⟨2024, 1, 1⟩)
      (by rw [(make_payload_spec fsBase "u1" "u2" ⟨2024, 1, 1⟩).2.1]; simp)⟩

/-! ### C8 and C10: the process-wide start guard -/

/-- With the guard already set, a background call changes nothing and emits
no action. -/
theorem bg_noop (st : SchedState) (env : Env) (avail : LoopAvail) (fs : FS)
    (u1 u2 u3 u4 : String) (d : Date) (h : st.hasScheduledSend = true) :
    maybe_send_telemetry_background st env avail fs u1 u2 u3 u4 d = (st, fs, []) := by
  simp [maybe_send_telemetry_background, h]

/-- After any background call the guard is set. -/
theorem bg_flag (st : SchedState) (env : Env) (avail : LoopAvail) (fs : FS)
    (u1 u2 u3 u4 : String) (d : Date) :
    (maybe_send_telemetry_background st env avail fs u1 u2 u3 u4 d).1.hasScheduledSend = true := by
  by_cases h : st.hasScheduledSend = true
  · simp [maybe_send_telemetry_background, h]
  · rw [Bool.not_eq_true] at h
    cases avail <;> simp [maybe_send_telemetry_background, h]

/-- Once the guard is set, a whole run of further calls is inert. -/
theorem runCalls_flagged (calls : List Call) : ∀ st : SchedState,
    st.hasScheduledSend = true → runCalls st calls = (st, []) := by
  induction calls with
  | nil => intro st _; rfl
  | cons c rest ih =>
    intro st h
    simp [runCalls, callStep, bg_noop st c.env c.avail c.fs c.u1 c.u2 c.u3 c.u4
      c.today h, ih st h]

/-- A single background call emits at most one `scheduleLoop` action. -/
theorem bg_count_loop (st : SchedState) (env : Env) (avail : LoopAvail)
    (fs : FS) (u1 u2 u3 u4 : String) (d : Date) :
    ((maybe_send_telemetry_background st env avail fs u1 u2 u3 u4 d).2.2.count
      Act.scheduleLoop) ≤ 1 := by
  by_cases h : st.hasScheduledSend = true
  · simp [bg_noop st env avail fs u1 u2 u3 u4 d h]
  · rw [Bool.not_eq_true] at h
    cases avail <;> simp [maybe_send_telemetry_background, h, List.count_cons]

/-- **C8**: the background entry point is idempotent: a call finding the
guard set returns immediately with no state change, no filesystem effect
and no action; every call leaves the guard set; the first call (guard
clear, running loop) persists the identity-store effect and schedules the
immediate send and the periodic loop; and over any sequence of calls in one
process at most one periodic loop is ever scheduled. -/
theorem background_idempotent_spec :
    (∀ (st : SchedState) (env : Env) (avail : LoopAvail) (fs : FS)
        (u1 u2 u3 u4 : String) (d : Date), st.hasScheduledSend = true →
      maybe_send_telemetry_background st env avail fs u1 u2 u3 u4 d = (st, fs, [])) ∧
    (∀ (st : SchedState) (env : Env) (avail : LoopAvail) (fs : FS)
        (u1 u2 u3 u4 : String) (d : Date),
      (maybe_send_telemetry_background st env avail fs u1 u2 u3 u4 d).1.hasScheduledSend = true) ∧
    (∀ (env : Env) (fs : FS) (u1 u2 u3 u4 : String) (d : Date),
      maybe_send_telemetry_background initState env .running fs u1 u2 u3 u4 d =
        ({ initState with hasScheduledSend := true, hasLoggedSchedule := true },
         (_ensure_instance_id fs u1 u2).2,
         [.scheduleImmediate, .scheduleLoop])) ∧
    (∀ calls : List Call,
      ((runCalls initState calls).2.count Act.scheduleLoop) ≤ 1) := by
  refine ⟨fun st env avail fs u1 u2 u3 u4 d h => bg_noop st env avail fs u1 u2 u3 u4 d h,
    bg_flag, ?_, ?_⟩
  · intro env fs u1 u2 u3 u4 d
    rfl
  · intro calls
    cases calls with
    | nil => simp [runCalls]
    | cons c rest =>
      have hflag := bg_flag initState c.env c.avail c.fs c.u1 c.u2 c.u3 c.u4 c.today
      simp only [runCalls, callStep, List.count_append]
      rw [runCalls_flagged rest _ hflag]
      simpa using bg_count_loop initState c.env c.avail c.fs c.u1 c.u2 c.u3 c.u4 c.today

/-- **C8** (witness): a second call after a successful start is a no-op, and
a two-call process schedules the loop exactly once. -/
theorem background_idempotent_spec_witness :
    maybe_send_telemetry_background ⟨true, true, false, false⟩ (fun _ => none)
      .running fsBase "a" "b" "c" "d" ⟨2024, 1, 1⟩ =
      (⟨true, true, false, false⟩, fsBase, []) ∧
    ((runCalls initState [callRunning, callRunning]).2.count Act.scheduleLoop) ≤ 1 :=
  ⟨background_idempotent_spec.1 ⟨true, true, false, false⟩ (fun _ => none)
      .running fsBase "a" "b" "c" "d" ⟨2024, 1, 1⟩ rfl,
   background_idempotent_spec.2.2.2 [callRunning, callRunning]⟩

/-- **C10**: the guard is set before any scheduling work, so it is set after
the first call whatever the event-loop situation was; consequently, if the
first call of a process happens when no running event loop is available
(`notRunning` or `raises`), no periodic loop is ever scheduled for the rest
of the process, no matter how many later calls happen with a running loop. -/
theorem guard_blocks_future_scheduling :
    (∀ c : Call, (callStep initState c).1.hasScheduledSend = true) ∧
    (∀ (c : Call) (rest : List Call), c.avail ≠ .running →
      ((runCalls initState (c :: rest)).2.count Act.scheduleLoop) = 0) := by
  constructor
  · intro c
    exact bg_flag initState c.env c.avail c.fs c.u1 c.u2 c.u3 c.u4 c.today
  · intro c rest havail
    have hflag := bg_flag initState c.env c.avail c.fs c.u1 c.u2 c.u3 c.u4 c.today
    simp only [runCalls, callStep, List.count_append]
    rw [runCalls_flagged rest _ hflag]
    cases ha : c.avail with
    | running => exact absurd ha havail
    | notRunning =>
      simp [maybe_send_telemetry_background, initState, ha, callStep]
    | raises =>
      simp [maybe_send_telemetry_background, initState, ha, callStep, List.count_cons]

/-- **C10** (witness): a first call without an event loop followed by a call
with a running loop never schedules the periodic loop. -/
theorem guard_blocks_future_scheduling_witness :
    callRaises.avail ≠ LoopAvail.running ∧
    ((runCalls initState [callRaises, callRunning]).2.count Act.scheduleLoop) = 0 :=
  ⟨by decide, guard_blocks_future_scheduling.2 callRaises [callRunning] (by decide)⟩

/-! ### C9: loop termination -/

/-- **C9** (counterexample): a tick error whose backoff sleep itself fails
with an ordinary exception makes the loop body return — the loop terminates
with no cancellation signal, contradicting "terminates only on an explicit
cancellation signal" and "no tick error ever terminates the loop". -/
theorem loop_terminates_without_cancel :
    _periodic_ping_loop_iter .error false .ok .error = .terminated false ∧
    _periodic_ping_loop_iter .error false .ok .error ≠ .terminated true := by
  exact ⟨rfl, by decide⟩

/-- **C9** (amended): an opted-out wake skips the tick and continues;
cancellation at the boundary sleep, at the send, or during the backoff
sleep terminates the loop as a cancellation; a tick error whose backoff
completes leads to a fixed 60-unit backoff and the loop continues; and the
loop terminates without a cancellation signal exactly when a tick error is
followed by a failing (non-cancelled) backoff sleep. -/
theorem loop_iter_amended (sleepO sendO backoffO : AwaitOutcome) (optOut : Bool) :
    (_periodic_ping_loop_iter .ok true sendO backoffO = .continued false 0) ∧
    (_periodic_ping_loop_iter .cancelled optOut sendO backoffO = .terminated true) ∧
    (_periodic_ping_loop_iter .ok false .cancelled backoffO = .terminated true) ∧
    (_periodic_ping_loop_iter .error optOut sendO .ok = .continued false 60) ∧
    (_periodic_ping_loop_iter .ok false .error .ok = .continued false 60) ∧
    (_periodic_ping_loop_iter .error optOut sendO .cancelled = .terminated true) ∧
    (_periodic_ping_loop_iter .ok false .error .cancelled = .terminated true) ∧
    (_periodic_ping_loop_iter .ok false .ok backoffO = .continued true 0) ∧
    (_periodic_ping_loop_iter sleepO optOut sendO backoffO = .terminated false ↔
      ((sleepO = .error ∨ (sleepO = .ok ∧ optOut = false ∧ sendO = .error)) ∧
        backoffO = .error)) := by
  cases sleepO <;> cases sendO <;> cases backoffO <;> cases optOut <;> decide

/-! ### C1: the policy gate -/

/-- **C1** (the code violates the claim): with the user opted out, the async
send path does gate and skips — but the first background call made when no
event loop is available takes the fallback path and dispatches a payload to
the transport without consulting the opt-out gate. -/
theorem fallback_post_ignores_opt_out :
    _env_opt_out envOptedOut = true ∧
    (maybe_send_telemetry_async initState envOptedOut fsBase "a" "b"
        ⟨2024, 1, 1⟩ true).1 = .skippedGate ∧
    ((maybe_send_telemetry_background initState envOptedOut .raises fsBase
        "a" "b" "c" "d" ⟨2024, 1, 1⟩).2.2.any Act.fallbackQ) = true := by
  refine ⟨by decide, ?_, ?_⟩
  · rfl
  · rfl

end Telemetry

